import Mathlib

/-!
Shallow embedding of `src/lib/TunnelCluster.js` (giapdong/localtunnel).

The file models:
* `LocalConnectionListener` — the byte-stream transform that watches for an
  embedded "408 Request Timeout" marker (`_transform`, `onTimeout`);
* the activity-detection regex of the remote `data` handler;
* the event-driven body of `TunnelCluster.open` as an explicit state machine:
  a `St` record for the mutable captured state (the `connecting` flag, the
  registered once-listeners, pending timers) and a `step` function mapping an
  external event to the next state plus the ordered list of observable actions
  (facade emissions, socket operations, timer registrations) the handlers
  perform.
-/

namespace Tunnel

/-! ## Character-level utilities (JS string operations used by the source) -/

/-- Does `s` start with `p`?  (Used to build JS `String.prototype.includes`.) -/
def startsWith : List Char → List Char → Bool
  | [], _ => true
  | _ :: _, [] => false
  | p :: ps, c :: cs => if p = c then startsWith ps cs else false

/-- JS `s.includes(p)`: `p` occurs as a contiguous substring of `s`. -/
def containsSub (p : List Char) : List Char → Bool
  | [] => p.isEmpty
  | c :: rest => startsWith p (c :: rest) || containsSub p rest

/-! ## LocalConnectionListener (the TimeoutSentinel transform) -/

/-- The marker searched for by `_transform`: `data.toString().includes('408 Request Timeout')`. -/
def marker : List Char := "408 Request Timeout".data

/-- `LocalConnectionListener._transform`: forwards the chunk unchanged
(`callback(null, data)`) and reports whether the 408 marker was seen
(`emitter.emit('local:timeout')` happens exactly when the Bool is `true`). -/
def transformChunk (data : List Char) : List Char × Bool :=
  (data, containsSub marker data)

/-- One chunk through the sentinel, tracking the `once`-listener registered by
`onTimeout`: `armed` says the listener is still attached; the `Nat` counts how
many times the registered callback ran on this chunk.  The emitter fires on
every marker hit, but a `once` listener detaches itself at its first
invocation, so an unarmed listener is never re-armed. -/
def processChunk (armed : Bool) (data : List Char) : Bool × Nat :=
  if (transformChunk data).2 then (false, if armed then 1 else 0) else (armed, 0)

/-- Fold `processChunk` over the chunks seen during the instance's lifetime,
summing callback invocations. -/
def processChunks : Bool → List (List Char) → Bool × Nat
  | armed, [] => (armed, 0)
  | armed, d :: ds =>
    let r := processChunk armed d
    let r2 := processChunks r.1 ds
    (r2.1, r.2 + r2.2)

/-! ## The activity-detection regex of the remote data handler

`data.toString().match(/^(\w+) (\S+)/)` — a maximal run of word characters,
one literal space, then a maximal run of non-whitespace characters, anchored
at the start of the chunk. -/

/-- JS `\w` (no unicode flag): ASCII letters, digits and underscore. -/
def isWordChar (c : Char) : Bool := c.isAlphanum || c = '_'

/-- ECMAScript `\s` (WhiteSpace plus LineTerminator): tab, LF, VT, FF, CR,
space, NBSP, U+1680, the Zs run U+2000-U+200A, LS U+2028, PS U+2029, NNBSP
U+202F, MMSP U+205F, ideographic space U+3000, and BOM U+FEFF; `\S` is its
negation. -/
def jsIsSpace (c : Char) : Bool :=
  c = ' ' || c = '\t' || c = '\n' || c = '\r' || c = '\u000b' || c = '\u000c' ||
  c = '\u00a0' || c = '\u1680' || ('\u2000' ≤ c && c ≤ '\u200a') ||
  c = '\u2028' || c = '\u2029' || c = '\u202f' || c = '\u205f' ||
  c = '\u3000' || c = '\ufeff'

/-- Longest prefix of `s` whose characters all satisfy `f` (greedy `+`). -/
def takeW (f : Char → Bool) : List Char → List Char
  | [] => []
  | c :: cs => if f c then c :: takeW f cs else []

/-- What remains of `s` after `takeW f s`. -/
def dropW (f : Char → Bool) : List Char → List Char
  | [] => []
  | c :: cs => if f c then dropW f cs else c :: cs

/-- The head of `l`, when it exists, fails `f`. -/
def headFails (f : Char → Bool) : List Char → Prop
  | [] => True
  | c :: _ => f c = false

instance headFails_decidable (f : Char → Bool) (l : List Char) :
    Decidable (headFails f l) := by
  cases l with
  | nil => exact .isTrue trivial
  | cons c cs => exact inferInstanceAs (Decidable (f c = false))

/-- After the leading word-run `m`, the regex requires one literal space and a
nonempty run of non-space characters taken from the remainder. -/
def matchAfterWord (m : List Char) : List Char → Option (List Char × List Char)
  | [] => none
  | c :: r2 =>
    if m = [] then none
    else if c = ' ' then
      if takeW (fun x => !jsIsSpace x) r2 = [] then none
      else some (m, takeW (fun x => !jsIsSpace x) r2)
    else none

/-- `/^(\w+) (\S+)/` applied to a chunk: `some (method, path)` exactly when
the regex matches, with the two capture groups. -/
def activityMatch (s : List Char) : Option (List Char × List Char) :=
  matchAfterWord (takeW isWordChar s) (dropW isWordChar s)

/-! ## The event-driven body of `TunnelCluster.open`

`open()` captures a mutable environment (the `connecting` flag, the `remote`
socket, the per-pairing `local` socket with its registered once-listeners and
timers) and installs handlers.  `St` records that environment; `Ev` is an
external stimulus delivered by the runtime; `step` runs the handler the source
registers for that stimulus and returns the successor state together with the
ordered list of observable actions the handler performs. -/

/-- The configuration object `opts` (only the fields `open()` reads).
`remote_ip` / `local_host` use `""` for the JS falsy "absent" value.
`certReadable` models whether `fs.readFileSync` on `local_cert`/`local_key`
succeeds; `randStream` models the successive values of `Math.random()`. -/
structure Config where
  remote_ip : String
  remote_host : String
  remote_port : Nat
  local_host : String
  local_port : Nat
  local_https : Bool
  allow_invalid_cert : Bool
  session_connection : Bool
  certReadable : Bool
  randStream : Nat → ℚ

/-- JS `a || b` on strings (empty string is falsy). -/
def jsOrStr (a b : String) : String := if a = "" then b else a

/-- `const remoteHostOrIp = opt.remote_ip || opt.remote_host`. -/
def remoteHostOrIp (cfg : Config) : String := jsOrStr cfg.remote_ip cfg.remote_host

/-- The message of the `error` emitted on a refused remote connection. -/
def refusedMsg (cfg : Config) : List Char :=
  "connection refused: ".data ++ (remoteHostOrIp cfg).data ++ ":".data ++
    (Nat.repr cfg.remote_port).data ++ " (check your firewall settings)".data

/-- Observable actions a handler performs, in program order: facade emissions
(`this.emit(...)`), socket operations, listener detachment and timer
registrations. -/
inductive Act where
  | remoteConnectStart
  | emitOpen
  | emitDead
  | emitError (msg : List Char)
  | emitRequest (method path : List Char)
  | localEnd
  | remoteEnd
  | remotePause
  | remoteResume
  | detachRemoteClose
  | scheduleRetry (delayMs : Nat)
  | localConnectAttempt
  | armIdleTimer (ms : ℚ)
  | throwErr
  deriving DecidableEq

/-- External stimuli delivered by the runtime to the registered handlers. -/
inductive Ev where
  | remoteConnect
  | remoteData (chunk : List Char)
  | remoteError (code : String)
  | remoteClosed
  | localError (code : String)
  | localConnected
  | idleFire
  | injector408
  | retryFire
  deriving DecidableEq

/-- The captured mutable environment of one `open()` call. -/
structure St where
  /-- `let connecting = false` — set by the remote data handler. -/
  connecting : Bool
  /-- `remote.destroyed` (true once the remote socket has closed). -/
  remoteDestroyed : Bool
  /-- `remote.end()` has been called. -/
  remoteEnded : Bool
  /-- `remote.once('close', remoteClose)` is still attached. -/
  closeAttached : Bool
  /-- the remote stream is paused. -/
  remotePaused : Bool
  /-- a local socket for the current pairing attempt exists. -/
  localExists : Bool
  /-- `local.once('error', ...)` is still attached. -/
  localErrorArmed : Bool
  /-- the session idle timer / its `local.once('timeout', ...)` is armed. -/
  idleArmed : Bool
  /-- the `timeoutInjector.onTimeout` once-listener is armed. -/
  injectorArmed : Bool
  /-- `local.once('connect', ...)` is still attached. -/
  localConnectArmed : Bool
  /-- `setTimeout(connLocal, 1000)` is pending. -/
  retryPending : Bool
  /-- number of `connLocal` runs so far (indexes `randStream`). -/
  attemptIdx : Nat
  /-- `remote.once('connect', ...)` has fired. -/
  openHandled : Bool
  /-- an exception escaped a handler (uncaught). -/
  crashed : Bool
  deriving DecidableEq

/-- State at the end of `open()`: handlers registered, nothing fired yet. -/
def initSt : St :=
  { connecting := false, remoteDestroyed := false, remoteEnded := false,
    closeAttached := false, remotePaused := false, localExists := false,
    localErrorArmed := false, idleArmed := false, injectorArmed := false,
    localConnectArmed := false, retryPending := false, attemptIdx := 0,
    openHandled := false, crashed := false }

/-- The synchronous part of `open()`: it starts the remote `net.connect`,
enables keep-alive and registers handlers.  The certificate files are *not*
read here — `getLocalCertOpts` is only evaluated inside `connLocal`. -/
def openTunnel (_cfg : Config) : St × List Act :=
  (initSt, [Act.remoteConnectStart])

/-- `getLocalCertOpts` throws inside `connLocal` exactly when a TLS local
connection is requested, certificate validation is not disabled, and the
certificate/key files cannot be read. -/
def crashCond (cfg : Config) : Bool :=
  cfg.local_https && !cfg.allow_invalid_cert && !cfg.certReadable

/-- `Math.random() * (80_000 - 30_000) + 30_000`. -/
def actualTimeoutValue (r : ℚ) : ℚ := r * (80000 - 30000) + 30000

/-- Body of the `remoteClose` callback: `this.emit('dead'); local.end();`. -/
def remoteCloseActs : List Act := [Act.emitDead, Act.localEnd]

/-- The pairing routine `connLocal`:
abort with `dead` if the remote socket is destroyed; otherwise pause the
remote stream, open the local socket (reading certificates for TLS — which
may throw), register `remoteClose` and the local error/connect handlers, and
arm the randomized session idle timer when `session_connection` is set. -/
def connLocal (cfg : Config) (st : St) : St × List Act :=
  if st.remoteDestroyed then (st, [Act.emitDead])
  else if crashCond cfg then
    ({ st with remotePaused := true, crashed := true },
     [Act.remotePause, Act.throwErr])
  else
    ({ st with remotePaused := true, localExists := true,
               closeAttached := true, localErrorArmed := true,
               idleArmed := cfg.session_connection, injectorArmed := false,
               localConnectArmed := true, attemptIdx := st.attemptIdx + 1 },
     [Act.remotePause, Act.localConnectAttempt] ++
       (if cfg.session_connection then
          [Act.armIdleTimer (actualTimeoutValue (cfg.randStream st.attemptIdx))]
        else []))

/-- Dispatch one external event to the handler the source registers for it. -/
def step (cfg : Config) (st : St) (ev : Ev) : St × List Act :=
  if st.crashed then (st, [])
  else
    match ev with
    | .remoteConnect =>
      -- `remote.once('connect', () => { this.emit('open', remote); connLocal(); })`
      if st.openHandled then (st, [])
      else
        let r := connLocal cfg { st with openHandled := true }
        (r.1, Act.emitOpen :: r.2)
    | .remoteData chunk =>
      -- `remote.on('data', data => { connecting = true; const match = ... })`
      ({ st with connecting := true },
       match activityMatch chunk with
       | some mp => [Act.emitRequest mp.1 mp.2]
       | none => [])
    | .remoteError code =>
      -- emit `error` only for ECONNREFUSED, then `remote.end()` in all cases
      ({ st with remoteEnded := true },
       (if code = "ECONNREFUSED" then [Act.emitError (refusedMsg cfg)] else []) ++
         [Act.remoteEnd])
    | .remoteClosed =>
      -- the socket's own close event runs `remoteClose` iff still attached
      if st.closeAttached then
        ({ st with remoteDestroyed := true, closeAttached := false },
         remoteCloseActs)
      else ({ st with remoteDestroyed := true }, [])
    | .localError code =>
      -- `local.once('error', err => { local.end(); remote.removeListener(...);
      --   if (code ≠ REFUSED && code ≠ RESET) return remote.end();
      --   setTimeout(connLocal, 1000); })`
      if st.localErrorArmed then
        if code = "ECONNREFUSED" ∨ code = "ECONNRESET" then
          ({ st with localErrorArmed := false, closeAttached := false,
                     retryPending := true },
           [Act.localEnd, Act.detachRemoteClose, Act.scheduleRetry 1000])
        else
          ({ st with localErrorArmed := false, closeAttached := false,
                     remoteEnded := true },
           [Act.localEnd, Act.detachRemoteClose, Act.remoteEnd])
      else (st, [])
    | .localConnected =>
      -- `local.once('connect', ...)`: resume remote, build the duplex pipe,
      -- create the timeoutInjector and register its once-callback
      if st.localConnectArmed then
        ({ st with localConnectArmed := false, remotePaused := false,
                   injectorArmed := true },
         [Act.remoteResume])
      else (st, [])
    | .idleFire =>
      -- `local.once('timeout', ...)`: ignored while `connecting`, else
      -- detach remoteClose, end remote, call remoteClose() directly
      if st.idleArmed then
        if st.connecting then ({ st with idleArmed := false }, [])
        else
          ({ st with idleArmed := false, closeAttached := false,
                     remoteEnded := true },
           [Act.detachRemoteClose, Act.remoteEnd] ++ remoteCloseActs)
      else (st, [])
    | .injector408 =>
      -- `timeoutInjector.onTimeout(...)`: same body as the idle-timer handler
      if st.injectorArmed then
        if st.connecting then ({ st with injectorArmed := false }, [])
        else
          ({ st with injectorArmed := false, closeAttached := false,
                     remoteEnded := true },
           [Act.detachRemoteClose, Act.remoteEnd] ++ remoteCloseActs)
      else (st, [])
    | .retryFire =>
      -- the pending `setTimeout(connLocal, 1000)` fires
      if st.retryPending then connLocal cfg { st with retryPending := false }
      else (st, [])

/-- Deliver a list of events in order, concatenating the actions. -/
def run (cfg : Config) : St → List Ev → St × List Act
  | st, [] => (st, [])
  | st, ev :: evs =>
    let r := step cfg st ev
    let r2 := run cfg r.1 evs
    (r2.1, r.2 ++ r2.2)

/-! ## Concrete fixtures used by closed statements -/

/-- A plain-HTTP configuration (no TLS, no session timer). -/
def cfg0 : Config :=
  { remote_ip := "", remote_host := "rem.example", remote_port := 7777,
    local_host := "", local_port := 8000, local_https := false,
    allow_invalid_cert := false, session_connection := false,
    certReadable := true, randStream := fun _ => 0 }

/-- TLS to the local service, no trust override, unreadable certificate files. -/
def cfgBad : Config :=
  { cfg0 with local_https := true, certReadable := false }

/-- `cfg0` with the randomized session timer enabled. -/
def cfgS : Config :=
  { cfg0 with session_connection := true, randStream := fun _ => 1/2 }

/-- State right after `remote` connects and the first `connLocal` run. -/
def stPaired : St := (run cfg0 initSt [Ev.remoteConnect]).1

/-- `stPaired` with the session idle timer armed. -/
def stIdle : St := { stPaired with idleArmed := true }

/-- `stPaired` with the 408 injector armed (local connection established). -/
def stInj : St := { stPaired with injectorArmed := true }

/-- A state where remote data has arrived (`connecting` latched true). -/
def stConn : St :=
  { stPaired with connecting := true, idleArmed := true, injectorArmed := true }

/-- State while a 1-second retry of `connLocal` is pending. -/
def stRetry : St := { stPaired with retryPending := true, localErrorArmed := false }

/-- `stRetry` after the remote socket has been destroyed. -/
def stGone : St := { stRetry with remoteDestroyed := true }

/-- The pairing states from which the transient-error retry loop runs: not
crashed, remote alive, local error handler attached, no retry pending. -/
def goodPaired (st : St) : Prop :=
  st.crashed = false ∧ st.remoteDestroyed = false ∧
    st.localErrorArmed = true ∧ st.retryPending = false

/-- One failure/retry round: the local connect fails with ECONNREFUSED and the
1-second timer then fires. -/
def cycle : List Ev := [Ev.localError "ECONNREFUSED", Ev.retryFire]

/-- `n` consecutive failure/retry rounds. -/
def cycles : Nat → List Ev
  | 0 => []
  | n + 1 => cycle ++ cycles n

/-! ## Supporting lemmas and claim theorems -/

theorem startsWith_iff (p : List Char) : ∀ s : List Char,
    startsWith p s = true ↔ ∃ t, s = p ++ t := by
  induction p with
  | nil =>
    intro s
    simp [startsWith]
  | cons a ps ih =>
    intro s
    cases s with
    | nil =>
      simp [startsWith]
    | cons c cs =>
      by_cases hac : a = c
      · subst hac
        rw [show startsWith (a :: ps) (a :: cs) = startsWith ps cs from by
          simp [startsWith]]
        rw [ih cs]
        constructor
        · rintro ⟨t, ht⟩
          exact ⟨t, by simp [ht]⟩
        · rintro ⟨t, ht⟩
          injection ht with _ h2
          exact ⟨t, h2⟩
      · rw [show startsWith (a :: ps) (c :: cs) = false from by
          simp [startsWith, hac]]
        simp only [Bool.false_eq_true, false_iff]
        rintro ⟨t, ht⟩
        injection ht with h1 _
        exact hac h1.symm

theorem containsSub_iff (p : List Char) : ∀ s : List Char,
    containsSub p s = true ↔ ∃ pre post, s = pre ++ p ++ post := by
  intro s
  induction s with
  | nil =>
    cases p with
    | nil => simp [containsSub, List.isEmpty]
    | cons a ps =>
      simp only [containsSub, List.isEmpty]
      constructor
      · intro h
        exact absurd h (by simp)
      · rintro ⟨pre, post, h⟩
        exact absurd h (by simp)
  | cons c cs ih =>
    simp only [containsSub, Bool.or_eq_true]
    rw [startsWith_iff, ih]
    constructor
    · rintro (⟨t, ht⟩ | ⟨pre, post, h⟩)
      · exact ⟨[], t, by simp [ht]⟩
      · exact ⟨c :: pre, post, by simp [h]⟩
    · rintro ⟨pre, post, h⟩
      cases pre with
      | nil =>
        left
        exact ⟨post, by simpa using h⟩
      | cons d pre2 =>
        right
        injection h with h1 h2
        exact ⟨pre2, post, h2⟩

theorem processChunks_unarmed (ds : List (List Char)) :
    processChunks false ds = (false, 0) := by
  induction ds with
  | nil => rfl
  | cons d ds ih =>
    simp only [processChunks, processChunk]
    split <;> simp [ih]

theorem takeW_append_dropW (f : Char → Bool) :
    ∀ s : List Char, takeW f s ++ dropW f s = s := by
  intro s
  induction s with
  | nil => rfl
  | cons c cs ih =>
    by_cases h : f c = true
    · simp [takeW, dropW, h, ih]
    · simp only [Bool.not_eq_true] at h
      simp [takeW, dropW, h]

theorem mem_takeW (f : Char → Bool) :
    ∀ (s : List Char) (c : Char), c ∈ takeW f s → f c = true := by
  intro s
  induction s with
  | nil => intro c hc; simp [takeW] at hc
  | cons a cs ih =>
    intro c hc
    by_cases h : f a = true
    · simp only [takeW, if_pos h, List.mem_cons] at hc
      rcases hc with rfl | hc
      · exact h
      · exact ih c hc
    · simp only [Bool.not_eq_true] at h
      simp [takeW, h] at hc

theorem headFails_dropW (f : Char → Bool) :
    ∀ s : List Char, headFails f (dropW f s) := by
  intro s
  induction s with
  | nil => trivial
  | cons c cs ih =>
    by_cases h : f c = true
    · simpa [dropW, h] using ih
    · simp only [Bool.not_eq_true] at h
      simp [dropW, h, headFails]

theorem takeW_all_append (f : Char → Bool) :
    ∀ (l r : List Char), (∀ c ∈ l, f c = true) → headFails f r →
      takeW f (l ++ r) = l ∧ dropW f (l ++ r) = r := by
  intro l
  induction l with
  | nil =>
    intro r _ hr
    cases r with
    | nil => exact ⟨rfl, rfl⟩
    | cons c cs =>
      simp only [headFails] at hr
      simp [takeW, dropW, hr]
  | cons a l ih =>
    intro r hl hr
    have ha : f a = true := hl a (by simp)
    have hrec := ih r (fun c hc => hl c (by simp [hc])) hr
    simp [takeW, dropW, ha, hrec.1, hrec.2]

/-- Characterization of the regex: it matches with captures `(m, p)` iff the
chunk decomposes as a nonempty word-token `m`, one space, a nonempty
non-space-token `p`, and a remainder that is empty or starts with whitespace
(so `m` and `p` are the maximal such runs). -/
theorem activityMatch_iff (s m p : List Char) :
    activityMatch s = some (m, p) ↔
      (m ≠ [] ∧ (∀ c ∈ m, isWordChar c = true) ∧
       p ≠ [] ∧ (∀ c ∈ p, jsIsSpace c = false) ∧
       ∃ rest, s = m ++ ' ' :: (p ++ rest) ∧
         headFails (fun x => !jsIsSpace x) rest) := by
  constructor
  · intro h
    unfold activityMatch at h
    rcases hd : dropW isWordChar s with _ | ⟨c, r2⟩
    · rw [hd] at h
      exact absurd h (by simp [matchAfterWord])
    · rw [hd] at h
      simp only [matchAfterWord] at h
      by_cases h1 : takeW isWordChar s = []
      · rw [if_pos h1] at h
        exact absurd h (by simp)
      rw [if_neg h1] at h
      by_cases h2 : c = ' '
      swap
      · rw [if_neg h2] at h
        exact absurd h (by simp)
      rw [if_pos h2] at h
      by_cases h3 : takeW (fun x => !jsIsSpace x) r2 = []
      · rw [if_pos h3] at h
        exact absurd h (by simp)
      rw [if_neg h3] at h
      have hmp : takeW isWordChar s = m ∧ takeW (fun x => !jsIsSpace x) r2 = p := by
        have := Option.some.inj h
        exact ⟨congrArg Prod.fst this, congrArg Prod.snd this⟩
      subst h2
      refine ⟨hmp.1 ▸ h1, ?_, hmp.2 ▸ h3, ?_, ?_⟩
      · intro x hx
        exact mem_takeW isWordChar s x (hmp.1 ▸ hx)
      · intro x hx
        have := mem_takeW (fun x => !jsIsSpace x) r2 x (hmp.2 ▸ hx)
        simpa using this
      · refine ⟨dropW (fun x => !jsIsSpace x) r2, ?_, headFails_dropW _ r2⟩
        have hs : takeW isWordChar s ++ dropW isWordChar s = s :=
          takeW_append_dropW isWordChar s
        have hr2 : takeW (fun x => !jsIsSpace x) r2 ++
            dropW (fun x => !jsIsSpace x) r2 = r2 :=
          takeW_append_dropW (fun x => !jsIsSpace x) r2
        rw [show p ++ dropW (fun x => !jsIsSpace x) r2 = r2 from by
          rw [← hmp.2]; exact hr2]
        rw [← hs, hd, hmp.1]
  · rintro ⟨hm, hmw, hp, hps, rest, rfl, hrest⟩
    have hsp : isWordChar ' ' = false := by decide
    have hdec := takeW_all_append isWordChar m (' ' :: (p ++ rest)) hmw
      (by simpa [headFails] using hsp)
    have hdec2 := takeW_all_append (fun x => !jsIsSpace x) p rest
      (fun c hc => by simp [hps c hc]) hrest
    unfold activityMatch
    rw [hdec.2, hdec.1]
    simp only [matchAfterWord]
    rw [if_neg hm, hdec2.1]
    simp [hp]

theorem run_append (cfg : Config) (l1 l2 : List Ev) : ∀ st : St,
    run cfg st (l1 ++ l2) =
      ((run cfg (run cfg st l1).1 l2).1,
       (run cfg st l1).2 ++ (run cfg (run cfg st l1).1 l2).2) := by
  induction l1 with
  | nil => intro st; simp [run]
  | cons e l1 ih =>
    intro st
    simp [run, ih, List.append_assoc]


/-- C7: `_transform` forwards every chunk byte-identically, and the timeout
signal is raised iff the chunk contains the substring "408 Request Timeout"
anywhere in it (unanchored substring match). -/
theorem transform_passthrough_signal (data : List Char) :
    (transformChunk data).1 = data ∧
      ((transformChunk data).2 = true ↔
        ∃ pre post, data = pre ++ marker ++ post) :=
  ⟨rfl, containsSub_iff marker data⟩

/-- C8: over any sequence of chunks through one `LocalConnectionListener`,
the callback registered with `onTimeout` is invoked at most once, even when
the marker appears in several chunks; once fired the listener stays detached
(never re-armed) and contributes no further invocations. -/
theorem timeout_callback_at_most_once (ds : List (List Char)) :
    (processChunks true ds).2 ≤ 1 ∧
      (∀ es : List (List Char), processChunks false es = (false, 0)) := by
  constructor
  · induction ds with
    | nil => simp [processChunks]
    | cons d ds ih =>
      simp only [processChunks, processChunk]
      by_cases h : (transformChunk d).2 = true
      · simp [h, processChunks_unarmed]
      · simp only [Bool.not_eq_true] at h
        simpa [h] using ih
  · exact processChunks_unarmed

/-- C9: when `session_connection` is enabled, the idle timer armed by each
pairing attempt has duration `Math.random() * (80000 - 30000) + 30000`, which
lies in the closed interval [30000, 80000] ms; when `session_connection` is
false, no idle timer is armed at all. -/
theorem session_timer_bounds (cfg cfg2 : Config) (st st2 : St)
    (hr0 : ∀ n, 0 ≤ cfg.randStream n) (hr1 : ∀ n, cfg.randStream n < 1)
    (hs : cfg.session_connection = true)
    (hd : st.remoteDestroyed = false) (hc : crashCond cfg = false)
    (hs2 : cfg2.session_connection = false)
    (hd2 : st2.remoteDestroyed = false) (hc2 : crashCond cfg2 = false) :
    (∃ d, (connLocal cfg st).2 =
        [Act.remotePause, Act.localConnectAttempt, Act.armIdleTimer d] ∧
        30000 ≤ d ∧ d ≤ 80000) ∧
    (connLocal cfg st).1.idleArmed = true ∧
    (∀ d, Act.armIdleTimer d ∉ (connLocal cfg2 st2).2) ∧
    (connLocal cfg2 st2).1.idleArmed = false := by
  have h50 : (80000 : ℚ) - 30000 = 50000 := by norm_num
  refine ⟨⟨actualTimeoutValue (cfg.randStream st.attemptIdx), ?_, ?_, ?_⟩,
    ?_, ?_, ?_⟩
  · simp [connLocal, hd, hc, hs]
  · unfold actualTimeoutValue
    rw [h50]
    have := hr0 st.attemptIdx
    nlinarith
  · unfold actualTimeoutValue
    rw [h50]
    have := hr1 st.attemptIdx
    nlinarith
  · simp [connLocal, hd, hc, hs]
  · intro d
    simp [connLocal, hd2, hc2, hs2]
  · simp [connLocal, hd2, hc2, hs2]

theorem session_timer_bounds_witness :
    (∃ d, (connLocal cfgS stPaired).2 =
        [Act.remotePause, Act.localConnectAttempt, Act.armIdleTimer d] ∧
        30000 ≤ d ∧ d ≤ 80000) ∧
    (connLocal cfgS stPaired).1.idleArmed = true ∧
    (∀ d, Act.armIdleTimer d ∉ (connLocal cfg0 stPaired).2) ∧
    (connLocal cfg0 stPaired).1.idleArmed = false :=
  session_timer_bounds cfgS cfg0 stPaired stPaired
    (fun _ => by norm_num [cfgS, cfg0]) (fun _ => by norm_num [cfgS, cfg0])
    rfl (by decide) (by decide) rfl (by decide) (by decide)

/-- C10: for every remote data chunk, the activity-detection pattern
(word-token, single space, non-space token, anchored at the chunk start —
the iff gives the exact decomposition, with both runs maximal) emits a
`request` event with the two captured tokens as method and path; a chunk not
matching the pattern emits no `request` event; concretely,
"GET /foo HTTP/1.1\r\n..." yields method "GET" and path "/foo".  The last two
conjuncts pin the ECMAScript whitespace set: `\S+` refuses the Zs separator
U+2000, and the path capture stops before an ideographic space U+3000. -/
theorem activity_regex_request (cfg : Config) (st st2 : St)
    (s m p chunk2 : List Char)
    (h : st.crashed = false) (h2 : st2.crashed = false)
    (hn : activityMatch chunk2 = none) :
    (activityMatch s = some (m, p) ↔
      (m ≠ [] ∧ (∀ c ∈ m, isWordChar c = true) ∧
       p ≠ [] ∧ (∀ c ∈ p, jsIsSpace c = false) ∧
       ∃ rest, s = m ++ ' ' :: (p ++ rest) ∧
         headFails (fun x => !jsIsSpace x) rest)) ∧
    (activityMatch s = some (m, p) →
      (step cfg st (Ev.remoteData s)).2 = [Act.emitRequest m p]) ∧
    ((step cfg st2 (Ev.remoteData chunk2)).2 = []) ∧
    (activityMatch ("GET /foo HTTP/1.1\r\nHost: x".data)
      = some ("GET".data, "/foo".data)) ∧
    (activityMatch ("A \u2000x".data) = none) ∧
    (activityMatch ("GET /foo\u3000bar".data)
      = some ("GET".data, "/foo".data)) := by
  refine ⟨activityMatch_iff s m p, ?_, ?_, by decide, by decide, by decide⟩
  · intro hm
    simp [step, h, hm]
  · simp [step, h2, hn]

theorem activity_regex_request_witness :
    (activityMatch ("GET /foo HTTP/1.1\r\nHost: x".data)
        = some ("GET".data, "/foo".data) ↔
      ("GET".data ≠ [] ∧ (∀ c ∈ "GET".data, isWordChar c = true) ∧
       "/foo".data ≠ [] ∧ (∀ c ∈ "/foo".data, jsIsSpace c = false) ∧
       ∃ rest, "GET /foo HTTP/1.1\r\nHost: x".data =
           "GET".data ++ ' ' :: ("/foo".data ++ rest) ∧
         headFails (fun x => !jsIsSpace x) rest)) ∧
    (activityMatch ("GET /foo HTTP/1.1\r\nHost: x".data)
        = some ("GET".data, "/foo".data) →
      (step cfg0 stPaired (Ev.remoteData ("GET /foo HTTP/1.1\r\nHost: x".data))).2
        = [Act.emitRequest ("GET".data) ("/foo".data)]) ∧
    ((step cfg0 stPaired (Ev.remoteData ("\r\nxyz".data))).2 = []) ∧
    (activityMatch ("GET /foo HTTP/1.1\r\nHost: x".data)
      = some ("GET".data, "/foo".data)) ∧
    (activityMatch ("A \u2000x".data) = none) ∧
    (activityMatch ("GET /foo\u3000bar".data)
      = some ("GET".data, "/foo".data)) :=
  activity_regex_request cfg0 stPaired stPaired
    ("GET /foo HTTP/1.1\r\nHost: x".data) ("GET".data) ("/foo".data)
    ("\r\nxyz".data) (by decide) (by decide) (by decide)

theorem connLocal_connecting (cfg : Config) (st : St) :
    (connLocal cfg st).1.connecting = st.connecting := by
  unfold connLocal
  split_ifs <;> rfl

theorem connLocal_crashed (cfg : Config) (st : St) (h : crashCond cfg = false) :
    (connLocal cfg st).1.crashed = st.crashed := by
  simp only [connLocal, h]
  split_ifs <;> first | rfl | exact False.elim (by assumption)

theorem step_connecting_mono (cfg : Config) (st : St) (ev : Ev)
    (h : st.connecting = true) : (step cfg st ev).1.connecting = true := by
  by_cases hcr : st.crashed = true
  · simp [step, hcr, h]
  · simp only [Bool.not_eq_true] at hcr
    cases ev <;> simp [step, hcr, h, connLocal_connecting] <;>
      split_ifs <;> simp [connLocal_connecting, h]

theorem step_crashed_stable (cfg : Config) (st : St) (ev : Ev)
    (hc : crashCond cfg = false) (h : st.crashed = false) :
    (step cfg st ev).1.crashed = false := by
  cases ev <;> simp [step, h, connLocal_crashed _ _ hc] <;>
    split_ifs <;> simp [connLocal_crashed _ _ hc, h]

theorem run_connecting_mono (cfg : Config) (tr : List Ev) : ∀ st : St,
    st.connecting = true → (run cfg st tr).1.connecting = true := by
  induction tr with
  | nil => intro st h; simpa [run] using h
  | cons e tr ih =>
    intro st h
    simp only [run]
    exact ih _ (step_connecting_mono cfg st e h)

theorem run_crashed_stable (cfg : Config) (hc : crashCond cfg = false)
    (tr : List Ev) : ∀ st : St,
    st.crashed = false → (run cfg st tr).1.crashed = false := by
  induction tr with
  | nil => intro st h; simpa [run] using h
  | cons e tr ih =>
    intro st h
    simp only [run]
    exact ih _ (step_crashed_stable cfg st e hc h)

theorem idle_suppressed_of_connecting (cfg : Config) (st : St)
    (h : st.connecting = true) :
    (step cfg st Ev.idleFire).2 = [] ∧ (step cfg st Ev.injector408).2 = [] := by
  by_cases hcr : st.crashed = true
  · simp [step, hcr]
  · simp only [Bool.not_eq_true] at hcr
    constructor <;> simp [step, hcr, h] <;> split_ifs <;> rfl

theorem data_sets_connecting (cfg : Config) (st : St) (chunk : List Char)
    (h : st.crashed = false) :
    (step cfg st (Ev.remoteData chunk)).1.connecting = true := by
  simp [step, h]

/-- C4: the `connecting` flag is set by every remote data chunk and no handler
ever resets it; hence once a data chunk has arrived in a (crash-free) session,
the final state of any continuation still has `connecting = true` and every
later idle-timer firing and embedded-408 signal takes the no-op branch,
producing no actions. -/
theorem connecting_latch_suppression (cfg : Config) (stM stD stT : St)
    (ev : Ev) (chunk : List Char) (tr tr2 : List Ev)
    (hM : stM.connecting = true)
    (hD : stD.crashed = false)
    (hT : stT.connecting = true)
    (hc : crashCond cfg = false) :
    ((step cfg stM ev).1.connecting = true) ∧
    ((step cfg stD (Ev.remoteData chunk)).1.connecting = true) ∧
    ((step cfg stT Ev.idleFire).2 = [] ∧ (step cfg stT Ev.injector408).2 = []) ∧
    ((run cfg initSt (tr ++ Ev.remoteData chunk :: tr2)).1.connecting = true ∧
     (step cfg (run cfg initSt (tr ++ Ev.remoteData chunk :: tr2)).1
        Ev.idleFire).2 = [] ∧
     (step cfg (run cfg initSt (tr ++ Ev.remoteData chunk :: tr2)).1
        Ev.injector408).2 = []) := by
  refine ⟨step_connecting_mono cfg stM ev hM, data_sets_connecting cfg stD chunk hD,
    idle_suppressed_of_connecting cfg stT hT, ?_⟩
  have hmidcrash : (run cfg initSt tr).1.crashed = false :=
    run_crashed_stable cfg hc tr initSt rfl
  have hfin : (run cfg initSt (tr ++ Ev.remoteData chunk :: tr2)).1.connecting
      = true := by
    rw [run_append]
    simp only [run]
    exact run_connecting_mono cfg tr2 _
      (data_sets_connecting cfg _ chunk hmidcrash)
  exact ⟨hfin, idle_suppressed_of_connecting cfg _ hfin⟩

theorem connecting_latch_suppression_witness :
    ((step cfg0 stConn Ev.remoteClosed).1.connecting = true) ∧
    ((step cfg0 stPaired (Ev.remoteData ("GET / HTTP/1.1".data))).1.connecting
      = true) ∧
    ((step cfg0 stConn Ev.idleFire).2 = [] ∧
     (step cfg0 stConn Ev.injector408).2 = []) ∧
    ((run cfg0 initSt ([Ev.remoteConnect] ++
        Ev.remoteData ("GET / HTTP/1.1".data) :: [Ev.idleFire])).1.connecting
      = true ∧
     (step cfg0 (run cfg0 initSt ([Ev.remoteConnect] ++
        Ev.remoteData ("GET / HTTP/1.1".data) :: [Ev.idleFire])).1
        Ev.idleFire).2 = [] ∧
     (step cfg0 (run cfg0 initSt ([Ev.remoteConnect] ++
        Ev.remoteData ("GET / HTTP/1.1".data) :: [Ev.idleFire])).1
        Ev.injector408).2 = []) :=
  connecting_latch_suppression cfg0 stConn stPaired stConn Ev.remoteClosed
    ("GET / HTTP/1.1".data) [Ev.remoteConnect] [Ev.idleFire]
    (by decide) (by decide) (by decide) (by decide)

/-- C3: when the session idle timer (or the embedded-408 signal) fires while
`connecting` is false, the teardown performs, in order: detach the remote
close-forwarding listener, end the remote connection, emit `dead` (then end
the local socket) — and `dead` is emitted exactly once for that teardown, the
subsequent remote close surfacing nothing further; when `connecting` is true
at firing time the event is ignored and no action is performed. -/
theorem idle_teardown_sequence (cfg : Config) (stA stB stC : St)
    (hA0 : stA.crashed = false) (hA1 : stA.idleArmed = true)
    (hA2 : stA.connecting = false)
    (hB0 : stB.crashed = false) (hB1 : stB.injectorArmed = true)
    (hB2 : stB.connecting = false)
    (hC1 : stC.connecting = true) :
    ((step cfg stA Ev.idleFire).2 =
        [Act.detachRemoteClose, Act.remoteEnd, Act.emitDead, Act.localEnd] ∧
      (run cfg stA [Ev.idleFire, Ev.remoteClosed]).2.count Act.emitDead = 1) ∧
    ((step cfg stB Ev.injector408).2 =
        [Act.detachRemoteClose, Act.remoteEnd, Act.emitDead, Act.localEnd] ∧
      (run cfg stB [Ev.injector408, Ev.remoteClosed]).2.count Act.emitDead = 1) ∧
    ((step cfg stC Ev.idleFire).2 = [] ∧ (step cfg stC Ev.injector408).2 = []) := by
  refine ⟨⟨?_, ?_⟩, ⟨?_, ?_⟩, idle_suppressed_of_connecting cfg stC hC1⟩
  · simp [step, remoteCloseActs, hA0, hA1, hA2]
  · simp [run, step, remoteCloseActs, hA0, hA1, hA2]
  · simp [step, remoteCloseActs, hB0, hB1, hB2]
  · simp [run, step, remoteCloseActs, hB0, hB1, hB2]

theorem idle_teardown_sequence_witness :
    ((step cfg0 stIdle Ev.idleFire).2 =
        [Act.detachRemoteClose, Act.remoteEnd, Act.emitDead, Act.localEnd] ∧
      (run cfg0 stIdle [Ev.idleFire, Ev.remoteClosed]).2.count Act.emitDead = 1) ∧
    ((step cfg0 stInj Ev.injector408).2 =
        [Act.detachRemoteClose, Act.remoteEnd, Act.emitDead, Act.localEnd] ∧
      (run cfg0 stInj [Ev.injector408, Ev.remoteClosed]).2.count Act.emitDead
        = 1) ∧
    ((step cfg0 stConn Ev.idleFire).2 = [] ∧
     (step cfg0 stConn Ev.injector408).2 = []) :=
  idle_teardown_sequence cfg0 stIdle stInj stConn
    (by decide) (by decide) (by decide) (by decide) (by decide) (by decide)
    (by decide)

/-- C1 (counterexample to the claim as stated): after a local error with code
"EPIPE" (neither ECONNREFUSED nor ECONNRESET), the handler does end local and
remote, but no `dead` event is ever surfaced — the close-forwarding listener
was detached before `remote.end()`, so the ensuing remote close emits
nothing. -/
theorem localFatal_dead_counterexample :
    (run cfg0 initSt [Ev.remoteConnect, Ev.localError "EPIPE",
        Ev.remoteClosed]).2 =
      [Act.emitOpen, Act.remotePause, Act.localConnectAttempt,
       Act.localEnd, Act.detachRemoteClose, Act.remoteEnd] ∧
    Act.emitDead ∉ (run cfg0 initSt [Ev.remoteConnect, Ev.localError "EPIPE",
        Ev.remoteClosed]).2 := by
  decide

/-- C1 (amended): for every local-connection error whose code is neither
ECONNREFUSED nor ECONNRESET, the handler ends the local connection, detaches
the remote close-forwarding listener, ends the remote connection, and
schedules no retry; no `dead` event is emitted for this teardown — in
particular the subsequent remote close surfaces nothing. -/
theorem localFatal_teardown (cfg : Config) (st : St) (code : String)
    (h0 : st.crashed = false) (h1 : st.localErrorArmed = true)
    (h2 : code ≠ "ECONNREFUSED") (h3 : code ≠ "ECONNRESET") :
    (step cfg st (Ev.localError code)).2 =
      [Act.localEnd, Act.detachRemoteClose, Act.remoteEnd] ∧
    (∀ d, Act.scheduleRetry d ∉ (step cfg st (Ev.localError code)).2) ∧
    (step cfg st (Ev.localError code)).1.retryPending = st.retryPending ∧
    (run cfg st [Ev.localError code, Ev.remoteClosed]).2 =
      [Act.localEnd, Act.detachRemoteClose, Act.remoteEnd] ∧
    Act.emitDead ∉ (run cfg st [Ev.localError code, Ev.remoteClosed]).2 := by
  refine ⟨?_, ?_, ?_, ?_, ?_⟩ <;>
    simp [run, step, h0, h1, h2, h3]

theorem localFatal_teardown_witness :
    (step cfg0 stPaired (Ev.localError "EPIPE")).2 =
      [Act.localEnd, Act.detachRemoteClose, Act.remoteEnd] ∧
    (∀ d, Act.scheduleRetry d ∉ (step cfg0 stPaired (Ev.localError "EPIPE")).2) ∧
    (step cfg0 stPaired (Ev.localError "EPIPE")).1.retryPending
      = stPaired.retryPending ∧
    (run cfg0 stPaired [Ev.localError "EPIPE", Ev.remoteClosed]).2 =
      [Act.localEnd, Act.detachRemoteClose, Act.remoteEnd] ∧
    Act.emitDead ∉ (run cfg0 stPaired [Ev.localError "EPIPE",
        Ev.remoteClosed]).2 :=
  localFatal_teardown cfg0 stPaired "EPIPE"
    (by decide) (by decide) (by decide) (by decide)

/-- C2 (counterexample to the claim as stated): with a local TLS connection
required (`local_https`), no trust override, and unreadable certificate/key
files, the call to `open()` itself raises nothing; the read failure is thrown
only while processing the remote transport's `connect` event. -/
theorem certRead_sync_counterexample :
    Act.throwErr ∉ (openTunnel cfgBad).2 ∧
      Act.throwErr ∈ (run cfgBad (openTunnel cfgBad).1 [Ev.remoteConnect]).2 := by
  decide

/-- C2 (amended): for every config requiring a local TLS connection with no
trust override and unreadable certificate/key files, `open(config)` itself
completes without raising; the read failure is raised asynchronously inside
the remote `connect` handler (during the first `connLocal` pairing attempt,
after `open` was emitted and the remote stream paused), crashing the
handler. -/
theorem certRead_async_on_connect (cfg : Config)
    (h1 : cfg.local_https = true) (h2 : cfg.allow_invalid_cert = false)
    (h3 : cfg.certReadable = false) :
    Act.throwErr ∉ (openTunnel cfg).2 ∧
    (run cfg (openTunnel cfg).1 [Ev.remoteConnect]).2 =
      [Act.emitOpen, Act.remotePause, Act.throwErr] ∧
    (run cfg (openTunnel cfg).1 [Ev.remoteConnect]).1.crashed = true := by
  have hcrash : crashCond cfg = true := by simp [crashCond, h1, h2, h3]
  refine ⟨by simp [openTunnel], ?_, ?_⟩ <;>
    simp [run, step, openTunnel, initSt, connLocal, hcrash]

theorem certRead_async_on_connect_witness :
    Act.throwErr ∉ (openTunnel cfgBad).2 ∧
    (run cfgBad (openTunnel cfgBad).1 [Ev.remoteConnect]).2 =
      [Act.emitOpen, Act.remotePause, Act.throwErr] ∧
    (run cfgBad (openTunnel cfgBad).1 [Ev.remoteConnect]).1.crashed = true :=
  certRead_async_on_connect cfgBad rfl rfl rfl

theorem inv_step_no_attempt (cfg : Config) (st : St) (ev : Ev)
    (hev : ev ≠ Ev.remoteConnect)
    (h1 : st.retryPending = false) (h2 : st.localErrorArmed = false) :
    Act.localConnectAttempt ∉ (step cfg st ev).2 ∧
      (step cfg st ev).1.retryPending = false ∧
      (step cfg st ev).1.localErrorArmed = false := by
  by_cases hcr : st.crashed = true
  · simp [step, hcr, h1, h2]
  simp only [Bool.not_eq_true] at hcr
  cases ev with
  | remoteConnect => exact absurd rfl hev
  | remoteData chunk =>
    rcases hm : activityMatch chunk with _ | mp <;> simp [step, hcr, hm, h1, h2]
  | remoteError code =>
    by_cases hco : code = "ECONNREFUSED" <;> simp [step, hcr, hco, h1, h2]
  | remoteClosed =>
    by_cases hca : st.closeAttached = true <;>
      simp [step, hcr, hca, h1, h2, remoteCloseActs]
  | localError code => simp [step, hcr, h2, h1]
  | localConnected =>
    by_cases harm : st.localConnectArmed = true <;>
      simp [step, hcr, harm, h1, h2]
  | idleFire =>
    by_cases hia : st.idleArmed = true <;>
      by_cases hcn : st.connecting = true <;>
        simp [step, hcr, hia, hcn, h1, h2, remoteCloseActs]
  | injector408 =>
    by_cases hia : st.injectorArmed = true <;>
      by_cases hcn : st.connecting = true <;>
        simp [step, hcr, hia, hcn, h1, h2, remoteCloseActs]
  | retryFire => simp [step, hcr, h1, h2]

theorem no_attempt_without_connect (cfg : Config) : ∀ (tr : List Ev) (st : St),
    Ev.remoteConnect ∉ tr → st.retryPending = false →
    st.localErrorArmed = false →
    Act.localConnectAttempt ∉ (run cfg st tr).2 := by
  intro tr
  induction tr with
  | nil =>
    intro st _ _ _
    simp [run]
  | cons e tr ih =>
    intro st htr h1 h2
    have he : e ≠ Ev.remoteConnect := by
      intro h
      exact htr (by simp [h])
    have htr2 : Ev.remoteConnect ∉ tr := by
      intro h
      exact htr (by simp [h])
    have hs := inv_step_no_attempt cfg st e he h1 h2
    simp only [run]
    intro hmem
    rcases List.mem_append.mp hmem with hm | hm
    · exact hs.1 hm
    · exact ih _ htr2 hs.2.1 hs.2.2 hm

theorem refusedMsg_decomp (cfg : Config) :
    (∃ pre post, refusedMsg cfg = pre ++ (remoteHostOrIp cfg).data ++ post) ∧
    (∃ pre post, refusedMsg cfg = pre ++ (Nat.repr cfg.remote_port).data ++ post) := by
  constructor
  · exact ⟨"connection refused: ".data,
      ":".data ++ (Nat.repr cfg.remote_port).data ++
        " (check your firewall settings)".data,
      by simp [refusedMsg, List.append_assoc]⟩
  · exact ⟨"connection refused: ".data ++ (remoteHostOrIp cfg).data ++ ":".data,
      " (check your firewall settings)".data,
      by simp [refusedMsg, List.append_assoc]⟩

/-- C6: a remote-transport error with code ECONNREFUSED makes the facade emit
an `error` whose message contains the effective remote host and the remote
port, followed by `remote.end()`; any other remote error code emits no
`error` event (only `remote.end()`); and in a session whose remote transport
never connects, no local connection attempt is ever made. -/
theorem remote_refused_error_event (cfg : Config) (stA stB : St)
    (code : String) (tr : List Ev)
    (hA : stA.crashed = false) (hB : stB.crashed = false)
    (hcode : code ≠ "ECONNREFUSED") (htr : Ev.remoteConnect ∉ tr) :
    ((step cfg stA (Ev.remoteError "ECONNREFUSED")).2 =
        [Act.emitError (refusedMsg cfg), Act.remoteEnd]) ∧
    (∃ pre post, refusedMsg cfg = pre ++ (remoteHostOrIp cfg).data ++ post) ∧
    (∃ pre post, refusedMsg cfg =
        pre ++ (Nat.repr cfg.remote_port).data ++ post) ∧
    ((step cfg stB (Ev.remoteError code)).2 = [Act.remoteEnd]) ∧
    (∀ m, Act.emitError m ∉ (step cfg stB (Ev.remoteError code)).2) ∧
    (Act.localConnectAttempt ∉ (run cfg initSt tr).2) := by
  refine ⟨?_, (refusedMsg_decomp cfg).1, (refusedMsg_decomp cfg).2, ?_, ?_, ?_⟩
  · simp [step, hA]
  · simp [step, hB, hcode]
  · intro m
    simp [step, hB, hcode]
  · exact no_attempt_without_connect cfg tr initSt htr rfl rfl

theorem remote_refused_error_event_witness :
    ((step cfg0 stPaired (Ev.remoteError "ECONNREFUSED")).2 =
        [Act.emitError (refusedMsg cfg0), Act.remoteEnd]) ∧
    (∃ pre post, refusedMsg cfg0 = pre ++ (remoteHostOrIp cfg0).data ++ post) ∧
    (∃ pre post, refusedMsg cfg0 =
        pre ++ (Nat.repr cfg0.remote_port).data ++ post) ∧
    ((step cfg0 stPaired (Ev.remoteError "ETIMEDOUT")).2 = [Act.remoteEnd]) ∧
    (∀ m, Act.emitError m ∉ (step cfg0 stPaired (Ev.remoteError "ETIMEDOUT")).2) ∧
    (Act.localConnectAttempt ∉ (run cfg0 initSt
        [Ev.remoteError "ECONNREFUSED", Ev.remoteClosed]).2) :=
  remote_refused_error_event cfg0 stPaired stPaired "ETIMEDOUT"
    [Ev.remoteError "ECONNREFUSED", Ev.remoteClosed]
    (by decide) (by decide) (by decide) (by decide)

theorem cycles_no_dead (cfg : Config) (hc : crashCond cfg = false) :
    ∀ (n : Nat) (st : St), goodPaired st →
      goodPaired (run cfg st (cycles n)).1 ∧
      Act.emitDead ∉ (run cfg st (cycles n)).2 ∧
      (run cfg st (cycles n)).2.count Act.localConnectAttempt = n := by
  intro n
  induction n with
  | zero =>
    intro st h
    simpa [cycles, run] using h
  | succ n ih =>
    intro st h
    obtain ⟨hcr, hrd, hle, hrp⟩ := h
    have h1 : step cfg st (Ev.localError "ECONNREFUSED") =
        ({ st with localErrorArmed := false, closeAttached := false, retryPending := true },
         [Act.localEnd, Act.detachRemoteClose, Act.scheduleRetry 1000]) := by
      simp [step, hcr, hle]
    have h2 : step cfg ({ st with localErrorArmed := false, closeAttached := false, retryPending := true } : St) Ev.retryFire =
        connLocal cfg { st with localErrorArmed := false, closeAttached := false, retryPending := false } := by
      simp [step, hcr]
    have h3 : connLocal cfg ({ st with localErrorArmed := false, closeAttached := false, retryPending := false } : St) =
        ({ st with remotePaused := true, localExists := true, closeAttached := true, localErrorArmed := true, idleArmed := cfg.session_connection, injectorArmed := false, localConnectArmed := true, attemptIdx := st.attemptIdx + 1, retryPending := false },
         [Act.remotePause, Act.localConnectAttempt] ++
           (if cfg.session_connection then
              [Act.armIdleTimer (actualTimeoutValue (cfg.randStream st.attemptIdx))]
            else [])) := by
      simp [connLocal, hrd, hc]
    have hgood : goodPaired ({ st with remotePaused := true, localExists := true, closeAttached := true, localErrorArmed := true, idleArmed := cfg.session_connection, injectorArmed := false, localConnectArmed := true, attemptIdx := st.attemptIdx + 1, retryPending := false } : St) :=
      ⟨hcr, hrd, rfl, rfl⟩
    obtain ⟨ihg, ihd, ihc⟩ := ih _ hgood
    have hrw : run cfg st (cycles (n + 1)) =
        ((run cfg ({ st with remotePaused := true, localExists := true, closeAttached := true, localErrorArmed := true, idleArmed := cfg.session_connection, injectorArmed := false, localConnectArmed := true, attemptIdx := st.attemptIdx + 1, retryPending := false } : St) (cycles n)).1,
         [Act.localEnd, Act.detachRemoteClose, Act.scheduleRetry 1000] ++
           (([Act.remotePause, Act.localConnectAttempt] ++
             (if cfg.session_connection then
                [Act.armIdleTimer (actualTimeoutValue (cfg.randStream st.attemptIdx))]
              else [])) ++
            (run cfg ({ st with remotePaused := true, localExists := true, closeAttached := true, localErrorArmed := true, idleArmed := cfg.session_connection, injectorArmed := false, localConnectArmed := true, attemptIdx := st.attemptIdx + 1, retryPending := false } : St) (cycles n)).2)) := by
      simp only [cycles, cycle, List.cons_append, List.nil_append, run,
        h1, h2, h3]
      simp
    refine ⟨?_, ?_, ?_⟩
    · rw [hrw]
      exact ihg
    · rw [hrw]
      rcases hsc : cfg.session_connection
      · rw [hsc] at ihd
        simp [hsc, ihd]
      · rw [hsc] at ihd
        simp [hsc, ihd]
    · rw [hrw]
      rcases hsc : cfg.session_connection
      · rw [hsc] at ihc
        simp [hsc, List.count_append, List.count_cons, ihc]
      · rw [hsc] at ihc
        simp [hsc, List.count_append, List.count_cons, ihc]

/-- C5: a local error with code ECONNREFUSED or ECONNRESET schedules exactly
one retry of `connLocal`, with a 1000 ms (≥ 1000 ms) delay, emitting no
`dead` and not ending the remote socket; when the retry fires with the remote
connection alive a new local connect attempt is made with no `dead` in
between; when it fires after the remote connection is destroyed, `connLocal`
emits `dead` and makes no further local attempt; and the failure/retry loop
is unbounded — any number `n` of consecutive refused/retry rounds yields
exactly `n` new local attempts and no `dead` while the remote stays alive. -/
theorem local_transient_retry (cfg : Config) (stA stB stC stD : St)
    (code : String) (n : Nat)
    (hc : crashCond cfg = false)
    (hA0 : stA.crashed = false) (hA1 : stA.localErrorArmed = true)
    (hco : code = "ECONNREFUSED" ∨ code = "ECONNRESET")
    (hB0 : stB.crashed = false) (hB1 : stB.retryPending = true)
    (hB2 : stB.remoteDestroyed = false)
    (hC0 : stC.crashed = false) (hC1 : stC.retryPending = true)
    (hC2 : stC.remoteDestroyed = true)
    (hD : goodPaired stD) :
    ((step cfg stA (Ev.localError code)).2 =
        [Act.localEnd, Act.detachRemoteClose, Act.scheduleRetry 1000] ∧
      (step cfg stA (Ev.localError code)).2.count (Act.scheduleRetry 1000) = 1 ∧
      (∀ d, Act.scheduleRetry d ∈ (step cfg stA (Ev.localError code)).2 →
        1000 ≤ d) ∧
      Act.emitDead ∉ (step cfg stA (Ev.localError code)).2 ∧
      Act.remoteEnd ∉ (step cfg stA (Ev.localError code)).2 ∧
      (step cfg stA (Ev.localError code)).1.retryPending = true) ∧
    (Act.localConnectAttempt ∈ (step cfg stB Ev.retryFire).2 ∧
      Act.emitDead ∉ (step cfg stB Ev.retryFire).2) ∧
    ((step cfg stC Ev.retryFire).2 = [Act.emitDead] ∧
      Act.localConnectAttempt ∉ (step cfg stC Ev.retryFire).2) ∧
    (goodPaired (run cfg stD (cycles n)).1 ∧
      Act.emitDead ∉ (run cfg stD (cycles n)).2 ∧
      (run cfg stD (cycles n)).2.count Act.localConnectAttempt = n) := by
  have hAS : step cfg stA (Ev.localError code) =
      ({ stA with localErrorArmed := false, closeAttached := false, retryPending := true },
       [Act.localEnd, Act.detachRemoteClose, Act.scheduleRetry 1000]) := by
    rcases hco with rfl | rfl <;> simp [step, hA0, hA1]
  refine ⟨⟨?_, ?_, ?_, ?_, ?_, ?_⟩, ⟨?_, ?_⟩, ⟨?_, ?_⟩, cycles_no_dead cfg hc n stD hD⟩
  · rw [hAS]
  · rw [hAS]
    simp [List.count_cons]
  · rw [hAS]
    intro d hd
    simp at hd
    omega
  · rw [hAS]
    simp
  · rw [hAS]
    simp
  · rw [hAS]
  · rcases hsc : cfg.session_connection <;>
      simp [step, connLocal, hB0, hB1, hB2, hc, hsc]
  · rcases hsc : cfg.session_connection <;>
      simp [step, connLocal, hB0, hB1, hB2, hc, hsc]
  · simp [step, connLocal, hC0, hC1, hC2]
  · simp [step, connLocal, hC0, hC1, hC2]

theorem local_transient_retry_witness :
    ((step cfg0 stPaired (Ev.localError "ECONNRESET")).2 =
        [Act.localEnd, Act.detachRemoteClose, Act.scheduleRetry 1000] ∧
      (step cfg0 stPaired (Ev.localError "ECONNRESET")).2.count
          (Act.scheduleRetry 1000) = 1 ∧
      (∀ d, Act.scheduleRetry d ∈
          (step cfg0 stPaired (Ev.localError "ECONNRESET")).2 → 1000 ≤ d) ∧
      Act.emitDead ∉ (step cfg0 stPaired (Ev.localError "ECONNRESET")).2 ∧
      Act.remoteEnd ∉ (step cfg0 stPaired (Ev.localError "ECONNRESET")).2 ∧
      (step cfg0 stPaired (Ev.localError "ECONNRESET")).1.retryPending = true) ∧
    (Act.localConnectAttempt ∈ (step cfg0 stRetry Ev.retryFire).2 ∧
      Act.emitDead ∉ (step cfg0 stRetry Ev.retryFire).2) ∧
    ((step cfg0 stGone Ev.retryFire).2 = [Act.emitDead] ∧
      Act.localConnectAttempt ∉ (step cfg0 stGone Ev.retryFire).2) ∧
    (goodPaired (run cfg0 stPaired (cycles 2)).1 ∧
      Act.emitDead ∉ (run cfg0 stPaired (cycles 2)).2 ∧
      (run cfg0 stPaired (cycles 2)).2.count Act.localConnectAttempt = 2) :=
  local_transient_retry cfg0 stPaired stRetry stGone stPaired "ECONNRESET" 2
    (by decide) (by decide) (by decide) (Or.inr rfl)
    (by decide) (by decide) (by decide)
    (by decide) (by decide) (by decide)
    ⟨by decide, by decide, by decide, by decide⟩
